import Mathlib

/-!
Verification of the webcam-to-3D-mesh dispatch pipeline
(`app.js` and the "fixed model loading" server variant).

The servers manipulate parsed JSON documents (workflow templates, HTTP
bodies).  `Value` is a shallow embedding of the JSON values involved:
null, booleans, numbers, strings, arrays and objects (association lists
of string keys, in insertion order, as produced by `JSON.parse`).
-/

inductive Value where
  | vnull : Value
  | vbool : Bool → Value
  | vnum : Int → Value
  | vstr : String → Value
  | varr : List Value → Value
  | vobj : List (String × Value) → Value

/-- JavaScript truthiness of a defined value (`if (v)`): `null`, `false`,
`0` and the empty string are falsy; objects and arrays are truthy. -/
def truthy : Value → Bool
  | .vnull => false
  | .vbool b => b
  | .vnum n => n != 0
  | .vstr s => !s.isEmpty
  | .varr _ => true
  | .vobj _ => true

/-- Truthiness of a possibly-undefined value (`Option Value`): an absent
property (`undefined`) is falsy. -/
def truthyO : Option Value → Bool
  | none => false
  | some v => truthy v

/-- Property lookup in an object's field list (first occurrence; parsed
JSON objects have unique keys). -/
def lookupField : List (String × Value) → String → Option Value
  | [], _ => none
  | (k, v) :: fs, key => if k = key then some v else lookupField fs key

/-- JavaScript property access `v.key`: `none` models `undefined`
(absent key, or access on a non-object primitive). -/
def getField (v : Value) (key : String) : Option Value :=
  match v with
  | .vobj fs => lookupField fs key
  | _ => none

/-- JavaScript property assignment on an object's field list: an existing
key keeps its position and receives the new value, a missing key is
appended. -/
def setFieldF : List (String × Value) → String → Value → List (String × Value)
  | [], key, x => [(key, x)]
  | (k, v) :: fs, key, x =>
      if k = key then (k, x) :: fs else (k, v) :: setFieldF fs key x

/-- Property assignment `v.key = x`; assignment on a non-object primitive
has no observable effect on the value. -/
def setFieldV (v : Value) (key : String) (x : Value) : Value :=
  match v with
  | .vobj gs => .vobj (setFieldF gs key x)
  | _ => v

mutual

/-- `JSON.parse(JSON.stringify(v))`: the deep clone taken by
`updateWorkflowWithImage` before patching (a structural copy of the
whole document). -/
def deepCloneV : Value → Value
  | .vnull => .vnull
  | .vbool b => .vbool b
  | .vnum n => .vnum n
  | .vstr s => .vstr s
  | .varr xs => .varr (deepCloneL xs)
  | .vobj fs => .vobj (deepCloneF fs)

/-- Deep clone of an array's elements. -/
def deepCloneL : List Value → List Value
  | [] => []
  | v :: vs => deepCloneV v :: deepCloneL vs

/-- Deep clone of an object's fields. -/
def deepCloneF : List (String × Value) → List (String × Value)
  | [] => []
  | (k, v) :: fs => (k, deepCloneV v) :: deepCloneF fs

end

/-- `node.class_type === c`: strict equality of the `class_type` property
with the string `c`. -/
def hasClass (node : Value) (c : String) : Bool :=
  match getField node "class_type" with
  | some (.vstr s) => s == c
  | _ => false

/-- The guard `node.inputs && node.inputs.key` used before every rewrite:
the `inputs` property is truthy and its `key` property is truthy. -/
def inputTruthy (node : Value) (key : String) : Bool :=
  truthyO (getField node "inputs") &&
    truthyO ((getField node "inputs").bind (fun inputs => getField inputs key))

/-- Read `node.inputs.key` (as a total function into `Option`). -/
def nodeInput (node : Value) (key : String) : Option Value :=
  (getField node "inputs").bind (fun inputs => getField inputs key)

/-- The assignment `node.inputs.key = x`: the node's `inputs` object gets
`key` rewritten; other node properties are untouched. -/
def setInput (node : Value) (key : String) (x : Value) : Value :=
  match node with
  | .vobj fs =>
      .vobj (fs.map (fun p => if p.1 = "inputs" then (p.1, setFieldV p.2 key x) else p))
  | _ => node

/-- `OUTPUT_PREFIX`: fixed output prefix for generated mesh files. -/
def OUTPUT_PREFIX : String := "webcam_3d_mesh"

/-- `MESH_FOLDER`: relative subfolder for mesh outputs. -/
def MESH_FOLDER : String := "mesh"

/-- `INPUT_FILENAME`: the fixed input filename, overwritten per capture. -/
def INPUT_FILENAME : String := "webcam_input.jpg"

/-- `PROMPT_DELAY_SECONDS`: delay before the deferred dispatch fires. -/
def PROMPT_DELAY_SECONDS : Nat := 5

/-- The `class_type` values the patcher recognizes and may rewrite. -/
def recognizedClasses : List String :=
  ["LoadImage", "SaveImage", "SaveGLB", "LoadImageMask", "ImageInput"]

namespace AppServer

/-- The per-node body of `app.js`'s `updateWorkflowWithImage` loop
(lines 53-87): sequential `if` blocks over the node being patched. -/
def patchNode (imageName : String) (node : Value) : Value :=
  let n1 := if hasClass node "LoadImage" && inputTruthy node "image"
    then setInput node "image" (.vstr imageName) else node
  let n2 := if hasClass n1 "SaveImage" && inputTruthy n1 "filename_prefix"
    then setInput n1 "filename_prefix" (.vstr OUTPUT_PREFIX) else n1
  let n3 := if hasClass n2 "SaveGLB" && inputTruthy n2 "filename_prefix"
    then setInput n2 "filename_prefix" (.vstr (MESH_FOLDER ++ "/" ++ OUTPUT_PREFIX)) else n2
  let n4 := if (hasClass n3 "LoadImageMask" || hasClass n3 "ImageInput")
               && inputTruthy n3 "image"
    then setInput n3 "image" (.vstr imageName) else n3
  n4

/-- The `for (const nodeId in updatedWorkflow)` loop applied to every
field of the workflow object. -/
def patchAllNodes (imageName : String) (fs : List (String × Value)) :
    List (String × Value) :=
  fs.map (fun p => (p.1, patchNode imageName p.2))

/-- `app.js` `updateWorkflowWithImage` (lines 49-90): deep-clone the
template, then patch every node of the clone. -/
def updateWorkflowWithImage (workflow : Value) (imageName : String) : Value :=
  match deepCloneV workflow with
  | .vobj fs => .vobj (patchAllNodes imageName fs)
  | w => w

/-- The server's module state relevant to patching: `workflowTemplate`,
loaded once at startup and only ever read afterwards. -/
structure ServerState where
  workflowTemplate : Value

/-- One call of the patcher against the stored template: the handler
passes `workflowTemplate` to `updateWorkflowWithImage`, which clones it
(line 50) and mutates only the clone, so the stored template is
returned unchanged. -/
def patchCall (s : ServerState) (imageName : String) : Value × ServerState :=
  (updateWorkflowWithImage s.workflowTemplate imageName, s)

/-- A sequence of patch calls against the server state. -/
def runPatchCalls (s : ServerState) (calls : List String) : ServerState :=
  calls.foldl (fun st a => (patchCall st a).2) s

/-- End-to-end scenario template: one `ImageInput` node and one `SaveGLB`
(mesh save) node, both with truthy placeholder inputs. -/
def scenarioTemplate : Value := .vobj
  [("1", .vobj [("class_type", .vstr "ImageInput"),
                ("inputs", .vobj [("image", .vstr "example.jpg")])]),
   ("2", .vobj [("class_type", .vstr "SaveGLB"),
                ("inputs", .vobj [("filename_prefix", .vstr "ComfyUI")])])]

end AppServer

namespace ModelServer

/-- The per-node body of the model-loading server's
`updateWorkflowWithImage` loop (part_000 lines 142-169): same as
`app.js` but with no `SaveImage` branch and a plain (non-namespaced)
mesh output prefix. -/
def patchNode (imageName : String) (node : Value) : Value :=
  let n1 := if hasClass node "LoadImage" && inputTruthy node "image"
    then setInput node "image" (.vstr imageName) else node
  let n2 := if hasClass n1 "SaveGLB" && inputTruthy n1 "filename_prefix"
    then setInput n1 "filename_prefix" (.vstr OUTPUT_PREFIX) else n1
  let n3 := if (hasClass n2 "LoadImageMask" || hasClass n2 "ImageInput")
               && inputTruthy n2 "image"
    then setInput n2 "image" (.vstr imageName) else n2
  n3

/-- The node loop over the workflow fields. -/
def patchAllNodes (imageName : String) (fs : List (String × Value)) :
    List (String × Value) :=
  fs.map (fun p => (p.1, patchNode imageName p.2))

/-- part_000 `updateWorkflowWithImage` (lines 138-172). -/
def updateWorkflowWithImage (workflow : Value) (imageName : String) : Value :=
  match deepCloneV workflow with
  | .vobj fs => .vobj (patchAllNodes imageName fs)
  | w => w

/-- Outcome of one `fetch` call: a response (status, statusText, body
text, and the result of parsing the body as JSON) or a transport-level
rejection (connection refused, timeout) carrying the error message. -/
inductive FetchOutcome where
  | resp (status : Nat) (statusText : String) (bodyText : String)
      (bodyJson : Except String Value)
  | netErr (msg : String)

/-- Stubbed transport for one dispatch attempt: the outcome the compute
service would give for `GET /system_stats` and for `POST /prompt`. -/
structure Transport where
  systemStats : FetchOutcome
  promptPost : FetchOutcome

/-- The HTTP requests `queueComfyUIPrompt` actually performs, in order. -/
inductive Request where
  | getSystemStats
  | postPrompt (promptData : Value)

/-- The value returned by `queueComfyUIPrompt`: `success: true` with
`prompt_id` and `number` extracted from the response JSON, or
`success: false` with the caught error's message. -/
inductive QueueResult where
  | success (prompt_id : Option Value) (number : Option Value)
  | failure (error : String)

/-- `response.ok`: status in the range 200-299. -/
def statusOk (s : Nat) : Bool := decide (200 ≤ s) && decide (s ≤ 299)

/-- part_000 `queueComfyUIPrompt` (lines 175-234), returning both the
function's result and the list of HTTP requests it performed.  A failed
health check or a thrown error short-circuits to the `catch` block,
which returns `success: false` with the error message; `now` stands for
`Date.now()` used to build the client id. -/
def queueComfyUIPrompt (t : Transport) (workflow : Value) (filename : String)
    (now : Int) : QueueResult × List Request :=
  match t.systemStats with
  | .netErr m => (.failure m, [.getSystemStats])
  | .resp s _ _ _ =>
    if statusOk s then
      let updatedWorkflow := updateWorkflowWithImage workflow filename
      let promptData := Value.vobj
        [("prompt", updatedWorkflow),
         ("client_id", .vstr ("webcam_app_" ++ toString now))]
      match t.promptPost with
      | .netErr m => (.failure m, [.getSystemStats, .postPrompt promptData])
      | .resp ps pst ptext pjson =>
        if statusOk ps then
          match pjson with
          | .error m => (.failure m, [.getSystemStats, .postPrompt promptData])
          | .ok j =>
              (.success (getField j "prompt_id") (getField j "number"),
               [.getSystemStats, .postPrompt promptData])
        else
          (.failure ("ComfyUI API error: " ++ toString ps ++ " " ++ pst
                       ++ " - " ++ ptext),
           [.getSystemStats, .postPrompt promptData])
    else
      (.failure ("ComfyUI server returned status: " ++ toString s),
       [.getSystemStats])

/-- Whether the health probe fails: transport error, or a non-success
status (both make `healthCheck` unhealthy). -/
def healthCheckFails (t : Transport) : Bool :=
  match t.systemStats with
  | .netErr _ => true
  | .resp s _ _ _ => !statusOk s

/-- Modelled from the spec: the error taxonomy of §7.  The source code
has no `errorKind` field (it only distinguishes failures by message);
this classifier assigns the spec's kind to a dispatch attempt's
transport outcomes: health probe failed → `ServiceUnavailable`,
job POST returned non-success → `RemoteRejected`, job POST failed at
the transport level → `Unreachable`. -/
inductive ErrorKind where
  | ServiceUnavailable
  | RemoteRejected
  | Unreachable
deriving DecidableEq, Repr

/-- Modelled from the spec (§7): classify a dispatch attempt's failure,
`none` when the attempt is accepted. -/
def specErrorKind (t : Transport) : Option ErrorKind :=
  match t.systemStats with
  | .netErr _ => some .ServiceUnavailable
  | .resp s _ _ _ =>
    if statusOk s then
      match t.promptPost with
      | .netErr _ => some .Unreachable
      | .resp ps _ _ _ => if statusOk ps then none else some .RemoteRejected
    else some .ServiceUnavailable

/-- Filesystem metadata returned by `fs.statSync` for an entry:
size in bytes and modification time (`mtime`, as an integer
timestamp). -/
structure FileStat where
  size : Int
  mtimeMs : Int
deriving DecidableEq, Repr

/-- State of the mesh output directory at scan time: `none` when the
directory does not exist, else the entry names in enumeration order;
`statOf` gives each entry's metadata. -/
structure MeshDirState where
  entries : Option (List String)
  statOf : String → FileStat

/-- The artifact record built for each surviving entry in
`findGLBFiles` (part_000 lines 108-119). -/
structure GLBFile where
  name : String
  path : String
  url : String
  size : Int
  created : Int
  modified : Int
deriving DecidableEq, Repr

/-- The filter `file.toLowerCase().endsWith('.glb')`, modeled over the
string's character list (per-character ASCII case mapping, which is all
the `.glb` suffix comparison observes). -/
def isGLBName (f : String) : Bool :=
  (".glb".data).isSuffixOf (f.data.map Char.toLower)

/-- `MODEL_MESH_FOLDER`: the configured mesh output directory. -/
def MODEL_MESH_FOLDER : String :=
  "D:/ComfyUI_windows_portable_nvidia/webcam-comfyui-3D-app-main/public/models/mesh"

/-- `path.join(dir, file)`; the platform separator is abstracted to
a forward slash. -/
def pathJoin (a b : String) : String := a ++ "/" ++ b

/-- Build the artifact record for one directory entry: name, full path,
public URL, size, and `created`/`modified` both taken from `mtime`. -/
def glbOfEntry (d : MeshDirState) (f : String) : GLBFile :=
  let st := d.statOf f
  ⟨f, pathJoin MODEL_MESH_FOLDER f, "/mesh/" ++ f, st.size, st.mtimeMs, st.mtimeMs⟩

/-- The JS sort comparator `(a, b) => b.created - a.created`: `a` may
come before `b` when `a` is at least as new.  `Array.prototype.sort`
is a stable sort, so its result is the unique stable reordering that
is sorted by this relation. -/
def byNewest (a b : GLBFile) : Prop := b.created ≤ a.created

instance : DecidableRel byNewest :=
  fun a b => inferInstanceAs (Decidable (b.created ≤ a.created))

instance : IsTotal GLBFile byNewest := ⟨fun a b => le_total b.created a.created⟩

instance : IsTrans GLBFile byNewest := ⟨fun _ _ _ h1 h2 => le_trans h2 h1⟩

/-- part_000 `findGLBFiles` (lines 91-129): empty when the directory
does not exist; otherwise filter entries by case-insensitive `.glb`
extension, stat each survivor, and stably sort newest-first
(`insertionSort` with `byNewest` is a stable sort, hence extensionally
the JS `Array.prototype.sort` with the `b.created - a.created`
comparator). -/
def findGLBFiles (d : MeshDirState) : List GLBFile :=
  match d.entries with
  | none => []
  | some es =>
      List.insertionSort byNewest ((es.filter isGLBName).map (glbOfEntry d))

/-- part_000 `findLatestGLBFile` (lines 132-135): the first element of
`findGLBFiles`, or `null` when there is none. -/
def findLatestGLBFile (d : MeshDirState) : Option GLBFile :=
  match findGLBFiles d with
  | [] => none
  | f :: _ => some f

/-- `Object.keys(workflowTemplate).length`. -/
def templateNodeCount (template : Value) : Nat :=
  match template with
  | .vobj fs => fs.length
  | _ => 0

/-- Observable outcome of one `POST /save-frame` request: the 400 error
for a missing `imageData`, or the success response together with the
file written and whether a deferred dispatch task was scheduled. -/
inductive SaveFrameOutcome where
  | badRequest (error : String)
  | okResponse (filename : String) (comfyui_enabled : Bool)
      (delay_seconds : Nat) (fileWritten : String) (dispatchScheduled : Bool)
deriving DecidableEq, Repr

/-- part_000 `/save-frame` handler (lines 237-296), with the frame bytes
and filesystem write abstracted to the fixed filename written.  Missing
or falsy `imageData` → 400; otherwise the frame is saved under the
fixed name, the response reports `comfyui_enabled` as
`Object.keys(workflowTemplate).length > 0`, and a deferred dispatch is
scheduled exactly when that count is positive. -/
def saveFrameHandler (template : Value) (imageData : Option Value) :
    SaveFrameOutcome :=
  if truthyO imageData then
    let enabled := decide (0 < templateNodeCount template)
    .okResponse INPUT_FILENAME enabled PROMPT_DELAY_SECONDS INPUT_FILENAME enabled
  else
    .badRequest "Missing imageData"

end ModelServer

/-- Concrete mesh-directory state exercising the artifact index: four
entries, three matching `.glb` case-insensitively, with strictly
increasing modification times in enumeration order. -/
def demoDir : ModelServer.MeshDirState :=
  ⟨some ["a.GLB", "b.glb", "noise.txt", "c.glb"],
   fun f =>
     if f = "a.GLB" then ⟨5, 1⟩
     else if f = "b.glb" then ⟨6, 2⟩
     else if f = "c.glb" then ⟨7, 3⟩
     else ⟨0, 0⟩⟩

/-- A template node of an unrecognized class, with truthy inputs. -/
def demoForeignNode : Value :=
  .vobj [("class_type", .vstr "KSampler"),
         ("inputs", .vobj [("seed", .vnum 42)])]

/-- A `LoadImage` node whose `image` input is present but the empty
string (falsy). -/
def demoFalsyNode : Value :=
  .vobj [("class_type", .vstr "LoadImage"),
         ("inputs", .vobj [("image", .vstr "")])]

/-- The mesh-save node of the end-to-end scenario template. -/
def demoMeshSaveNode : Value :=
  .vobj [("class_type", .vstr "SaveGLB"),
         ("inputs", .vobj [("filename_prefix", .vstr "ComfyUI")])]

mutual

/-- The JSON round-trip clone reproduces the value exactly. -/
theorem deepCloneV_id : ∀ v, deepCloneV v = v
  | .vnull => rfl
  | .vbool _ => rfl
  | .vnum _ => rfl
  | .vstr _ => rfl
  | .varr xs => by rw [deepCloneV, deepCloneL_id xs]
  | .vobj fs => by rw [deepCloneV, deepCloneF_id fs]

theorem deepCloneL_id : ∀ xs, deepCloneL xs = xs
  | [] => rfl
  | v :: vs => by rw [deepCloneL, deepCloneV_id v, deepCloneL_id vs]

theorem deepCloneF_id : ∀ fs, deepCloneF fs = fs
  | [] => rfl
  | (k, v) :: fs => by rw [deepCloneF, deepCloneV_id v, deepCloneF_id fs]

end

theorem lookupField_mapVal (g : Value → Value) (fs : List (String × Value))
    (key : String) :
    lookupField (fs.map (fun p => (p.1, g p.2))) key = (lookupField fs key).map g := by
  induction fs with
  | nil => rfl
  | cons p fs ih =>
    by_cases hp : p.1 = key
    · simp [lookupField, hp]
    · simp [lookupField, hp, ih]

theorem lookupField_inputsMap_ne (k : String) (x : Value)
    (fs : List (String × Value)) (key : String) (h : key ≠ "inputs") :
    lookupField (fs.map (fun p => if p.1 = "inputs" then (p.1, setFieldV p.2 k x) else p)) key
      = lookupField fs key := by
  induction fs with
  | nil => rfl
  | cons p fs ih =>
    rcases p with ⟨pk, pv⟩
    simp only [List.map]
    by_cases hp : pk = "inputs"
    · rw [if_pos hp]
      have hne : ¬pk = key := by
        rw [hp]
        exact fun hcontra => h hcontra.symm
      simp [lookupField, hne, ih]
    · rw [if_neg hp]
      by_cases hk : pk = key <;> simp [lookupField, hk, ih]

theorem lookupField_inputsMap_inputs (k : String) (x : Value)
    (fs : List (String × Value)) :
    lookupField (fs.map (fun p => if p.1 = "inputs" then (p.1, setFieldV p.2 k x) else p)) "inputs"
      = (lookupField fs "inputs").map (fun w => setFieldV w k x) := by
  induction fs with
  | nil => rfl
  | cons p fs ih =>
    rcases p with ⟨pk, pv⟩
    simp only [List.map]
    by_cases hp : pk = "inputs"
    · rw [if_pos hp]
      simp [lookupField, hp]
    · rw [if_neg hp]
      simp [lookupField, hp, ih]

theorem getField_setInput_ne (v : Value) (k : String) (x : Value)
    (key : String) (h : key ≠ "inputs") :
    getField (setInput v k x) key = getField v key := by
  cases v with
  | vobj fs => exact lookupField_inputsMap_ne k x fs key h
  | vnull => rfl
  | vbool b => rfl
  | vnum n => rfl
  | vstr s => rfl
  | varr xs => rfl

theorem getField_setInput_inputs (v : Value) (k : String) (x : Value) :
    getField (setInput v k x) "inputs"
      = (getField v "inputs").map (fun w => setFieldV w k x) := by
  cases v with
  | vobj fs => exact lookupField_inputsMap_inputs k x fs
  | vnull => rfl
  | vbool b => rfl
  | vnum n => rfl
  | vstr s => rfl
  | varr xs => rfl

theorem hasClass_setInput (v : Value) (k : String) (x : Value) (c : String) :
    hasClass (setInput v k x) c = hasClass v c := by
  unfold hasClass
  rw [getField_setInput_ne v k x "class_type" (by decide)]

theorem lookupField_setFieldF (gs : List (String × Value)) (key : String)
    (x : Value) : lookupField (setFieldF gs key x) key = some x := by
  induction gs with
  | nil => simp [setFieldF, lookupField]
  | cons p gs ih =>
    by_cases hp : p.1 = key
    · simp [setFieldF, hp, lookupField]
    · simp [setFieldF, hp, lookupField, ih]

theorem hasClass_ne (v : Value) (c c' : String) (h : hasClass v c = true)
    (hne : c ≠ c') : hasClass v c' = false := by
  unfold hasClass at h ⊢
  cases hf : getField v "class_type" with
  | none =>
    rw [hf] at h
  | some w =>
    rw [hf] at h
    cases w with
    | vstr s =>
      have hs : s = c := by simpa using h
      subst hs
      simpa using hne
    | vnull => simp at h
    | vbool b => simp at h
    | vnum n => simp at h
    | varr xs => simp at h
    | vobj fs => simp at h

theorem inputTruthy_obj (v : Value) (key : String)
    (h : inputTruthy v key = true) :
    ∃ gs, getField v "inputs" = some (.vobj gs) ∧
      ∃ pv, lookupField gs key = some pv ∧ truthy pv = true := by
  unfold inputTruthy at h
  cases hin : getField v "inputs" with
  | none =>
    rw [hin] at h
    simp [truthyO] at h
  | some w =>
    rw [hin] at h
    rw [Bool.and_eq_true] at h
    obtain ⟨hw, hk⟩ := h
    cases w with
    | vobj gs =>
      refine ⟨gs, rfl, ?_⟩
      simp only [Option.some_bind] at hk
      rw [show getField (Value.vobj gs) key = lookupField gs key from rfl] at hk
      cases hkk : lookupField gs key with
      | none =>
        rw [hkk] at hk
        simp [truthyO] at hk
      | some pv =>
        rw [hkk] at hk
        exact ⟨pv, rfl, by simpa [truthyO] using hk⟩
    | vnull => simp [truthyO, truthy] at hw
    | vbool b => simp [truthyO, getField] at hk
    | vnum n => simp [truthyO, getField] at hk
    | vstr s => simp [truthyO, getField] at hk
    | varr xs => simp [truthyO, getField] at hk

theorem nodeInput_setInput (v : Value) (key : String) (x : Value)
    (gs : List (String × Value)) (hin : getField v "inputs" = some (.vobj gs)) :
    nodeInput (setInput v key x) key = some x := by
  unfold nodeInput
  rw [getField_setInput_inputs, hin]
  simp [setFieldV, getField, lookupField_setFieldF]

theorem getField_updateApp (w : Value) (a id : String) :
    getField (AppServer.updateWorkflowWithImage w a) id
      = (getField w id).map (AppServer.patchNode a) := by
  unfold AppServer.updateWorkflowWithImage
  rw [deepCloneV_id]
  cases w with
  | vobj fs =>
    show lookupField (AppServer.patchAllNodes a fs) id
      = (lookupField fs id).map (AppServer.patchNode a)
    unfold AppServer.patchAllNodes
    exact lookupField_mapVal (AppServer.patchNode a) fs id
  | vnull => rfl
  | vbool b => rfl
  | vnum n => rfl
  | vstr s => rfl
  | varr xs => rfl

theorem patchNode_unrecognized (a : String) (v : Value)
    (h : ∀ c ∈ recognizedClasses, hasClass v c = false) :
    AppServer.patchNode a v = v := by
  have h1 := h "LoadImage" (by simp [recognizedClasses])
  have h2 := h "SaveImage" (by simp [recognizedClasses])
  have h3 := h "SaveGLB" (by simp [recognizedClasses])
  have h4 := h "LoadImageMask" (by simp [recognizedClasses])
  have h5 := h "ImageInput" (by simp [recognizedClasses])
  simp [AppServer.patchNode, h1, h2, h3, h4, h5]

theorem patchNode_falsy (a : String) (v : Value)
    (himg : inputTruthy v "image" = false)
    (hpre : inputTruthy v "filename_prefix" = false) :
    AppServer.patchNode a v = v := by
  simp [AppServer.patchNode, himg, hpre]

theorem patchNode_saveGLB (a : String) (v : Value)
    (hc : hasClass v "SaveGLB" = true)
    (hp : inputTruthy v "filename_prefix" = true) :
    AppServer.patchNode a v
      = setInput v "filename_prefix" (.vstr (MESH_FOLDER ++ "/" ++ OUTPUT_PREFIX)) := by
  have h1 : hasClass v "LoadImage" = false :=
    hasClass_ne v "SaveGLB" "LoadImage" hc (by decide)
  have h2 : hasClass v "SaveImage" = false :=
    hasClass_ne v "SaveGLB" "SaveImage" hc (by decide)
  have h4 : hasClass v "LoadImageMask" = false :=
    hasClass_ne v "SaveGLB" "LoadImageMask" hc (by decide)
  have h5 : hasClass v "ImageInput" = false :=
    hasClass_ne v "SaveGLB" "ImageInput" hc (by decide)
  simp [AppServer.patchNode, h1, h2, h4, h5, hc, hp, hasClass_setInput]

theorem runPatchCalls_eq (s : AppServer.ServerState) (calls : List String) :
    AppServer.runPatchCalls s calls = s := by
  induction calls generalizing s with
  | nil => rfl
  | cons a as ih => exact ih s

/-- C1: for every template, a node whose `class_type` is `SaveGLB`
(role `MeshSave`) with a truthy `filename_prefix` input has that input
rewritten by `updateWorkflowWithImage` to the configured mesh subfolder
followed by the output prefix (`mesh/webcam_3d_mesh`); in particular,
in the end-to-end scenario template (one `ImageInput` node, one
`SaveGLB` node) patched with asset name `webcam_input.jpg`, the patched
job has `ImageInput.inputs.image = "webcam_input.jpg"` and
`SaveGLB.inputs.filename_prefix = "mesh/webcam_3d_mesh"`. -/
theorem patchSetsMeshSavePrefix (w : Value) (a id : String) (node : Value)
    (hn : getField w id = some node)
    (hc : hasClass node "SaveGLB" = true)
    (hp : inputTruthy node "filename_prefix" = true) :
    getField (AppServer.updateWorkflowWithImage w a) id
        = some (AppServer.patchNode a node) ∧
    nodeInput (AppServer.patchNode a node) "filename_prefix"
        = some (.vstr (MESH_FOLDER ++ "/" ++ OUTPUT_PREFIX)) ∧
    (getField (AppServer.updateWorkflowWithImage AppServer.scenarioTemplate
        INPUT_FILENAME) "1").bind (fun n => nodeInput n "image")
        = some (.vstr "webcam_input.jpg") ∧
    (getField (AppServer.updateWorkflowWithImage AppServer.scenarioTemplate
        INPUT_FILENAME) "2").bind (fun n => nodeInput n "filename_prefix")
        = some (.vstr "mesh/webcam_3d_mesh") := by
  obtain ⟨gs, hin, -⟩ := inputTruthy_obj node "filename_prefix" hp
  refine ⟨?_, ?_, ?_, ?_⟩
  · rw [getField_updateApp, hn]
    rfl
  · rw [patchNode_saveGLB a node hc hp]
    exact nodeInput_setInput node "filename_prefix" _ gs hin
  · rw [getField_updateApp]
    rfl
  · rw [getField_updateApp]
    rfl

/-- Witness for C1: the theorem applied to the scenario template's
`SaveGLB` node. -/
theorem patchSetsMeshSavePrefix_witness :
    getField (AppServer.updateWorkflowWithImage AppServer.scenarioTemplate
        INPUT_FILENAME) "2"
        = some (AppServer.patchNode INPUT_FILENAME demoMeshSaveNode) ∧
    nodeInput (AppServer.patchNode INPUT_FILENAME demoMeshSaveNode)
        "filename_prefix"
        = some (.vstr (MESH_FOLDER ++ "/" ++ OUTPUT_PREFIX)) ∧
    (getField (AppServer.updateWorkflowWithImage AppServer.scenarioTemplate
        INPUT_FILENAME) "1").bind (fun n => nodeInput n "image")
        = some (.vstr "webcam_input.jpg") ∧
    (getField (AppServer.updateWorkflowWithImage AppServer.scenarioTemplate
        INPUT_FILENAME) "2").bind (fun n => nodeInput n "filename_prefix")
        = some (.vstr "mesh/webcam_3d_mesh") :=
  patchSetsMeshSavePrefix AppServer.scenarioTemplate INPUT_FILENAME "2"
    demoMeshSaveNode rfl rfl rfl

/-- C4: `updateWorkflowWithImage` changes only nodes whose `class_type`
is one of the recognized roles; a node of any other class is returned
byte-for-byte equal in the patched result. -/
theorem unrecognizedNodesUntouched (w : Value) (a id : String) (node : Value)
    (hn : getField w id = some node)
    (hr : ∀ c ∈ recognizedClasses, hasClass node c = false) :
    getField (AppServer.updateWorkflowWithImage w a) id = some node := by
  rw [getField_updateApp, hn]
  simp [patchNode_unrecognized a node hr]

/-- Witness for C4: a `KSampler` node passes through unmodified. -/
theorem unrecognizedNodesUntouched_witness :
    getField (AppServer.updateWorkflowWithImage
        (.vobj [("7", demoForeignNode)]) "webcam_input.jpg") "7"
      = some demoForeignNode :=
  unrecognizedNodesUntouched (.vobj [("7", demoForeignNode)])
    "webcam_input.jpg" "7" demoForeignNode rfl (by decide)

/-- C5: the stored workflow template is unchanged after any number of
patch calls (the patcher deep-clones and the clone is a faithful copy
of the template). -/
theorem patchNeverMutatesStore (s : AppServer.ServerState)
    (calls : List String) :
    AppServer.runPatchCalls s calls = s ∧ ∀ v, deepCloneV v = v :=
  ⟨runPatchCalls_eq s calls, deepCloneV_id⟩

/-- C9: patching is deterministic and history-free: the result of a
patch call does not depend on any previous patch calls, so repeated
calls with the same template and asset name give equal results. -/
theorem patchDeterministic (s : AppServer.ServerState)
    (calls calls' : List String) (a : String) :
    (AppServer.patchCall (AppServer.runPatchCalls s calls) a).1
      = (AppServer.patchCall (AppServer.runPatchCalls s calls') a).1 := by
  rw [runPatchCalls_eq, runPatchCalls_eq]

/-- C10: a node of a recognized class whose target input is present but
falsy (for example the empty string) is left unchanged by
`updateWorkflowWithImage`: the guard requires a truthy value, not mere
presence. -/
theorem falsyInputLeftUnchanged (w : Value) (a id : String) (node : Value)
    (hn : getField w id = some node)
    (himg : inputTruthy node "image" = false)
    (hpre : inputTruthy node "filename_prefix" = false) :
    getField (AppServer.updateWorkflowWithImage w a) id = some node := by
  rw [getField_updateApp, hn]
  simp [patchNode_falsy a node himg hpre]

/-- Witness for C10: a `LoadImage` node with `inputs.image = ""`
(present but falsy) passes through unmodified. -/
theorem falsyInputLeftUnchanged_witness :
    getField (AppServer.updateWorkflowWithImage
        (.vobj [("3", demoFalsyNode)]) "webcam_input.jpg") "3"
      = some demoFalsyNode :=
  falsyInputLeftUnchanged (.vobj [("3", demoFalsyNode)])
    "webcam_input.jpg" "3" demoFalsyNode rfl (by decide) (by decide)

/-- C2: when the health check fails (non-success status or transport
failure), `queueComfyUIPrompt` returns a not-accepted result, the only
request performed is the health probe (the POST to `/prompt` never
happens), and the spec taxonomy classifies the failure as
`ServiceUnavailable`. -/
theorem healthGateBlocksPost (t : ModelServer.Transport) (w : Value)
    (f : String) (now : Int)
    (h : ModelServer.healthCheckFails t = true) :
    (∃ m, (ModelServer.queueComfyUIPrompt t w f now).1
        = ModelServer.QueueResult.failure m) ∧
    (ModelServer.queueComfyUIPrompt t w f now).2
        = [ModelServer.Request.getSystemStats] ∧
    ModelServer.specErrorKind t
        = some ModelServer.ErrorKind.ServiceUnavailable := by
  unfold ModelServer.healthCheckFails at h
  cases hs : t.systemStats with
  | netErr m =>
    refine ⟨⟨m, ?_⟩, ?_, ?_⟩ <;>
      simp [ModelServer.queueComfyUIPrompt, ModelServer.specErrorKind, hs]
  | resp s st bt bj =>
    rw [hs] at h
    simp only [Bool.not_eq_true'] at h
    refine ⟨⟨"ComfyUI server returned status: " ++ toString s, ?_⟩, ?_, ?_⟩ <;>
      simp [ModelServer.queueComfyUIPrompt, ModelServer.specErrorKind, hs, h]

/-- Witness for C2: a transport-level health failure. -/
theorem healthGateBlocksPost_witness :
    (∃ m, (ModelServer.queueComfyUIPrompt
        ⟨.netErr "connection refused", .netErr "connection refused"⟩
        (.vobj []) "webcam_input.jpg" 0).1
        = ModelServer.QueueResult.failure m) ∧
    (ModelServer.queueComfyUIPrompt
        ⟨.netErr "connection refused", .netErr "connection refused"⟩
        (.vobj []) "webcam_input.jpg" 0).2
        = [ModelServer.Request.getSystemStats] ∧
    ModelServer.specErrorKind
        ⟨.netErr "connection refused", .netErr "connection refused"⟩
        = some ModelServer.ErrorKind.ServiceUnavailable :=
  healthGateBlocksPost
    ⟨.netErr "connection refused", .netErr "connection refused"⟩
    (.vobj []) "webcam_input.jpg" 0 rfl

/-- C3: when the health check succeeds but `POST /prompt` returns a
non-success status, `queueComfyUIPrompt` returns a not-accepted result
whose error detail ends with the response body (the body is captured in
the message), and the spec taxonomy classifies the failure as
`RemoteRejected`. -/
theorem remoteRejectedCapturesBody (t : ModelServer.Transport) (w : Value)
    (f : String) (now : Int) (s : Nat) (st bt : String)
    (bj : Except String Value) (ps : Nat) (pst ptext : String)
    (pjson : Except String Value)
    (hs : t.systemStats = .resp s st bt bj)
    (hok : ModelServer.statusOk s = true)
    (hp : t.promptPost = .resp ps pst ptext pjson)
    (hbad : ModelServer.statusOk ps = false) :
    (ModelServer.queueComfyUIPrompt t w f now).1
      = ModelServer.QueueResult.failure
          ("ComfyUI API error: " ++ toString ps ++ " " ++ pst ++ " - " ++ ptext) ∧
    (∃ pre, "ComfyUI API error: " ++ toString ps ++ " " ++ pst ++ " - " ++ ptext
        = pre ++ ptext) ∧
    ModelServer.specErrorKind t = some ModelServer.ErrorKind.RemoteRejected := by
  refine ⟨?_,
    ⟨"ComfyUI API error: " ++ toString ps ++ " " ++ pst ++ " - ", rfl⟩, ?_⟩
  · simp [ModelServer.queueComfyUIPrompt, hs, hok, hp, hbad]
  · simp [ModelServer.specErrorKind, hs, hok, hp, hbad]

/-- Witness for C3: a stubbed 500 on `/prompt` with a healthy probe. -/
theorem remoteRejectedCapturesBody_witness :
    (ModelServer.queueComfyUIPrompt
        ⟨.resp 200 "OK" "stats" (.ok (.vobj [])),
         .resp 500 "Internal Server Error" "invalid prompt" (.error "bad json")⟩
        (.vobj []) "webcam_input.jpg" 0).1
      = ModelServer.QueueResult.failure
          ("ComfyUI API error: " ++ toString 500 ++ " " ++ "Internal Server Error"
            ++ " - " ++ "invalid prompt") ∧
    (∃ pre, "ComfyUI API error: " ++ toString 500 ++ " " ++ "Internal Server Error"
        ++ " - " ++ "invalid prompt" = pre ++ "invalid prompt") ∧
    ModelServer.specErrorKind
        ⟨.resp 200 "OK" "stats" (.ok (.vobj [])),
         .resp 500 "Internal Server Error" "invalid prompt" (.error "bad json")⟩
      = some ModelServer.ErrorKind.RemoteRejected :=
  remoteRejectedCapturesBody
    ⟨.resp 200 "OK" "stats" (.ok (.vobj [])),
     .resp 500 "Internal Server Error" "invalid prompt" (.error "bad json")⟩
    (.vobj []) "webcam_input.jpg" 0 200 "OK" "stats" (.ok (.vobj []))
    500 "Internal Server Error" "invalid prompt" (.error "bad json")
    rfl (by decide) rfl (by decide)

/-- C6: for a directory whose matching (case-insensitive `.glb`)
entries have modification times `t1 < t2 < t3` in enumeration order,
`findGLBFiles` returns the corresponding artifacts ordered by
modification time descending: `[t3, t2, t1]`. -/
theorem artifactsSortedNewestFirst (d : ModelServer.MeshDirState)
    (es : List String) (n1 n2 n3 : String) (t1 t2 t3 : Int)
    (hd : d.entries = some es)
    (hf : es.filter ModelServer.isGLBName = [n1, n2, n3])
    (h1 : (d.statOf n1).mtimeMs = t1)
    (h2 : (d.statOf n2).mtimeMs = t2)
    (h3 : (d.statOf n3).mtimeMs = t3)
    (h12 : t1 < t2) (h23 : t2 < t3) :
    ModelServer.findGLBFiles d
      = [ModelServer.glbOfEntry d n3, ModelServer.glbOfEntry d n2,
         ModelServer.glbOfEntry d n1] := by
  have hc1 : (ModelServer.glbOfEntry d n1).created = t1 := by
    simp [ModelServer.glbOfEntry, h1]
  have hc2 : (ModelServer.glbOfEntry d n2).created = t2 := by
    simp [ModelServer.glbOfEntry, h2]
  have hc3 : (ModelServer.glbOfEntry d n3).created = t3 := by
    simp [ModelServer.glbOfEntry, h3]
  have hb23 : ¬ModelServer.byNewest (ModelServer.glbOfEntry d n2)
      (ModelServer.glbOfEntry d n3) := by
    unfold ModelServer.byNewest
    rw [hc2, hc3]
    exact not_le.mpr h23
  have hb13 : ¬ModelServer.byNewest (ModelServer.glbOfEntry d n1)
      (ModelServer.glbOfEntry d n3) := by
    unfold ModelServer.byNewest
    rw [hc1, hc3]
    exact not_le.mpr (h12.trans h23)
  have hb12 : ¬ModelServer.byNewest (ModelServer.glbOfEntry d n1)
      (ModelServer.glbOfEntry d n2) := by
    unfold ModelServer.byNewest
    rw [hc1, hc2]
    exact not_le.mpr h12
  simp only [ModelServer.findGLBFiles, hd, hf, List.map]
  simp only [List.insertionSort, List.orderedInsert, if_neg hb23, if_neg hb13,
    if_neg hb12]

/-- Witness for C6: a concrete directory with mtimes 1 < 2 < 3 comes
back newest-first. -/
theorem artifactsSortedNewestFirst_witness :
    ModelServer.findGLBFiles demoDir
      = [ModelServer.glbOfEntry demoDir "c.glb",
         ModelServer.glbOfEntry demoDir "b.glb",
         ModelServer.glbOfEntry demoDir "a.GLB"] :=
  artifactsSortedNewestFirst demoDir ["a.GLB", "b.glb", "noise.txt", "c.glb"]
    "a.GLB" "b.glb" "c.glb" 1 2 3 rfl (by decide) rfl rfl rfl
    (by decide) (by decide)

/-- C7: `findGLBFiles` returns an empty list (not an error) when the
directory does not exist or contains no matching entries, and
`findLatestGLBFile` is exactly the head of `findGLBFiles` (absent when
that list is empty). -/
theorem emptyDirectorySafety (st : String → ModelServer.FileStat)
    (es : List String) (d : ModelServer.MeshDirState)
    (h : es.filter ModelServer.isGLBName = []) :
    ModelServer.findGLBFiles ⟨none, st⟩ = [] ∧
    ModelServer.findGLBFiles ⟨some es, st⟩ = [] ∧
    ModelServer.findLatestGLBFile d = (ModelServer.findGLBFiles d).head? := by
  refine ⟨rfl, ?_, ?_⟩
  · simp [ModelServer.findGLBFiles, h]
  · unfold ModelServer.findLatestGLBFile
    cases hfd : ModelServer.findGLBFiles d with
    | nil => rfl
    | cons f fs => rfl

/-- Witness for C7: a missing directory and a directory with no `.glb`
entries. -/
theorem emptyDirectorySafety_witness :
    ModelServer.findGLBFiles ⟨none, fun _ => ⟨0, 0⟩⟩ = [] ∧
    ModelServer.findGLBFiles ⟨some ["readme.txt"], fun _ => ⟨0, 0⟩⟩ = [] ∧
    ModelServer.findLatestGLBFile ⟨none, fun _ => ⟨0, 0⟩⟩
      = (ModelServer.findGLBFiles ⟨none, fun _ => ⟨0, 0⟩⟩).head? :=
  emptyDirectorySafety (fun _ => ⟨0, 0⟩) ["readme.txt"]
    ⟨none, fun _ => ⟨0, 0⟩⟩ (by decide)

/-- C8: a capture request handled with the empty job template reports
`comfyui_enabled` as `false`, schedules no deferred dispatch, and still
saves the frame under the fixed input filename. -/
theorem emptyTemplateDisablesDispatch (img : Value) (h : truthy img = true) :
    ModelServer.saveFrameHandler (.vobj []) (some img)
      = ModelServer.SaveFrameOutcome.okResponse INPUT_FILENAME false
          PROMPT_DELAY_SECONDS INPUT_FILENAME false := by
  unfold ModelServer.saveFrameHandler
  rw [show truthyO (some img) = truthy img from rfl, h]
  simp [ModelServer.templateNodeCount]

/-- Witness for C8: a concrete data-URL payload with the empty
template. -/
theorem emptyTemplateDisablesDispatch_witness :
    ModelServer.saveFrameHandler (.vobj [])
        (some (.vstr "data:image/jpeg;base64,abc"))
      = ModelServer.SaveFrameOutcome.okResponse INPUT_FILENAME false
          PROMPT_DELAY_SECONDS INPUT_FILENAME false :=
  emptyTemplateDisablesDispatch (.vstr "data:image/jpeg;base64,abc") (by decide)
